import Mathlib

/-!
Verification of the Kea DHCP persistence layer against its specification.

Part 1 embeds the in-memory configuration backend
(`src/lib/dhcpsrv/testutils/test_config_backend_dhcp4.cc`): server-tag
visibility, subnet / global-parameter storage and the accessors the claims
are about.  Part 2 embeds the PostgreSQL lease manager
(`src/lib/dhcpsrv/pgsql_lease_mgr.cc`): the statement catalog, row
marshalling, and the add / update / expire / page operations.

Server tags are modelled as lists of strings; the tag set of an entity contains
the distinguished marker "all" when it is owned by all servers, and a
server selector is modelled by the list of tags it requests
(`ServerSelector::getTags()`).  These helper semantics
(`hasServerTag`, `hasAllServerTag`, tag resolution) live outside the
provided sources; they are modelled from the spec, which describes tags as
"an opaque set of string tags" with the distinguished "all servers" marker.
-/

namespace Kea

/-- The distinguished "all servers" marker tag.
Modelled from the spec: the catch-all ownership marker of an entity. -/
def allServersTag : String := "all"

/-- Modelled from the spec: an entity owns a server tag iff the tag is in
its owning tag set (`hasServerTag` of the config element, source not under
src/). -/
def hasServerTag (entityTags : List String) (t : String) : Bool :=
  entityTags.contains t

/-- Modelled from the spec: `hasAllServerTag` checks for the "all servers"
ownership marker. -/
def hasAllServerTag (entityTags : List String) : Bool :=
  entityTags.contains allServersTag

/-- A subnet as stored by the test config backend: numeric id, textual
prefix, owning server tags, modification time, and the shared-network name
back-reference. -/
structure Subnet where
  id : Nat
  cidr : String
  tags : List String
  mtime : Int
  sharedNetworkName : String
  deriving DecidableEq, Repr

/-- A named global parameter (StampedValue): name, value, owning server
tags and modification time. -/
structure StampedValue where
  name : String
  value : String
  tags : List String
  mtime : Int
  deriving DecidableEq, Repr

/-! ### Accessors of the test config backend

The store is a list of entities; list order models the iteration order of
the corresponding multi-index container index used by each accessor. -/

/-- Models `TestConfigBackendDHCPv4::getSubnet4(selector, subnet_id)`:
looks the subnet up in the by-id index; the `server_selector` parameter is
unnamed and unused in the source. -/
def getSubnet4ById (store : List Subnet) (_selTags : List String)
    (subnetId : Nat) : Option Subnet :=
  store.find? (fun s => s.id = subnetId)

/-- Models `TestConfigBackendDHCPv4::getSubnet4(selector, subnet_prefix)`:
looks the subnet up in the by-prefix index; the selector is unused in the
source. -/
def getSubnet4ByPrefix (store : List Subnet) (_selTags : List String)
    (subnetPfx : String) : Option Subnet :=
  store.find? (fun s => s.cidr = subnetPfx)

/-- Models `TestConfigBackendDHCPv4::getAllSubnets4`: for each stored subnet, push
it if it owns one of the selector tags, otherwise push it if it owns the
"all servers" marker.  The got/continue loop of the source is exactly a
filter by that disjunction. -/
def getAllSubnets4 (store : List Subnet) (selTags : List String) :
    List Subnet :=
  store.filter
    (fun s => selTags.any (fun t => hasServerTag s.tags t) ||
              hasAllServerTag s.tags)

/-- Models `TestConfigBackendDHCPv4::getModifiedSubnets4`: walks the
modification-time index from `lower_bound(modification_time)`; the
selector is unused in the source.  The list models the index, so the
result is every stored subnet with `modification_time <= mtime`. -/
def getModifiedSubnets4 (store : List Subnet) (_selTags : List String)
    (modificationTime : Int) : List Subnet :=
  store.filter (fun s => modificationTime ≤ s.mtime)

/-- A shared network: name, owning server tags, modification time. -/
structure SharedNetwork where
  name : String
  tags : List String
  mtime : Int
  deriving DecidableEq, Repr

/-- Models `TestConfigBackendDHCPv4::getSharedNetwork4(selector, name)`: by-name
index lookup; the selector is unused in the source. -/
def getSharedNetwork4 (store : List SharedNetwork) (_selTags : List String)
    (name : String) : Option SharedNetwork :=
  store.find? (fun n => n.name = name)

/-- Models `TestConfigBackendDHCPv4::getModifiedSharedNetworks4`: walks the
modification-time index from the cutoff; the selector is unused in the
source. -/
def getModifiedSharedNetworks4 (store : List SharedNetwork)
    (_selTags : List String) (modificationTime : Int) : List SharedNetwork :=
  store.filter (fun n => modificationTime ≤ n.mtime)

/-- Loop body of `TestConfigBackendDHCPv4::getGlobalParameter4` over the
`equal_range(name)` entries: return the first entry owning a selector tag
immediately; otherwise remember the latest entry owning the "all servers"
marker as the candidate, returned after the scan. -/
def getGlobalParameter4Loop (selTags : List String)
    (candidate : Option StampedValue) :
    List StampedValue → Option StampedValue
  | [] => candidate
  | e :: rest =>
    if selTags.any (fun t => hasServerTag e.tags t) then some e
    else if hasAllServerTag e.tags then
      getGlobalParameter4Loop selTags (some e) rest
    else
      getGlobalParameter4Loop selTags candidate rest

/-- Models `TestConfigBackendDHCPv4::getGlobalParameter4`: scan the entries whose
name matches (the name index `equal_range`), preferring an explicit-tag
match and falling back to the last "all servers" candidate. -/
def getGlobalParameter4 (store : List StampedValue) (selTags : List String)
    (name : String) : Option StampedValue :=
  getGlobalParameter4Loop selTags none (store.filter (fun e => e.name = name))

/-- The server-tag visibility rule exactly as the spec words it, for one
candidate entity: visible iff it owns at least one tag in the requested
set, or it owns the "all servers" marker and no explicit-tag entity for
the same natural key already matched. -/
def specVisible (selTags entityTags : List String)
    (explicitMatchForSameKey : Bool) : Bool :=
  selTags.any (fun t => entityTags.contains t) ||
  (entityTags.contains allServersTag && !explicitMatchForSameKey)

/-! ### Mutators of the test config backend -/

/-- Models `setServerTag`: adds a tag to the owning set of the entity when absent.
Modelled from the spec (the helper lives outside src/): tag sets grow by
insertion without duplicates. -/
def addTag (tags : List String) (t : String) : List String :=
  if tags.contains t then tags else tags ++ [t]

/-- Adds each tag of `ts` in order. -/
def addTags (tags : List String) (ts : List String) : List String :=
  ts.foldl addTag tags

/-- Models `TestConfigBackendDHCPv4::createUpdateSubnet4`: find an existing
subnet with the same id; if found, copy the server tags of the old entity onto
the new one (`copyServerTags`), merge the selector tags
(`mergeServerTags`), and replace in place; otherwise merge the selector
tags and insert.  `copyServerTags` / `mergeServerTags` are modelled from
the spec: "copy then merge - preserves multi-tag ownership across partial
updates", the selector resolving to its tag list. -/
def createUpdateSubnet4 (store : List Subnet) (selTags : List String)
    (s : Subnet) : List Subnet :=
  match store with
  | [] => [{ s with tags := addTags s.tags selTags }]
  | old :: rest =>
    if old.id = s.id then
      { s with tags := addTags (addTags s.tags old.tags) selTags } :: rest
    else
      old :: createUpdateSubnet4 rest selTags s

/-- Models `TestConfigBackendDHCPv4::deleteGlobalParameter4`: scan the entries of
`equal_range(name)` in index order and erase the first one owning the
resolved selector tag, returning 1; return 0 if none matches.  The scan
over the whole store list is equivalent because entries with a different
name are never touched.  Returns the count together with the new store. -/
def deleteGlobalParameter4 (store : List StampedValue) (tag : String)
    (name : String) : Nat × List StampedValue :=
  match store with
  | [] => (0, [])
  | e :: rest =>
    if e.name = name && hasServerTag e.tags tag then
      (1, rest)
    else
      let r := deleteGlobalParameter4 rest tag name
      (r.1, e :: r.2)

/-! ## Part 2: the PostgreSQL lease manager (`pgsql_lease_mgr.cc`)

Machine integers are modelled as `Nat` / `Int`; timestamps as `Int`
seconds.  The database is modelled as the list of rows of the lease table,
and each SQL statement of the catalog as the function it denotes on that
list.  Fallible operations return `Except DbError`. -/

/-- The error taxonomy of the spec (section 7) together with the error
classes thrown by the sources.  Each error carries its message text. -/
inductive DbError where
  | dbOpenError (msg : String)
  | schemaMismatchError (msg : String)
  | dbOperationError (msg : String)
  | noSuchLeaseError (msg : String)
  | multipleRecordsError (msg : String)
  | badValue (msg : String)
  | dataConversionError (msg : String)
  deriving DecidableEq, Repr

/-- True exactly for the `dataConversionError` class. -/
def DbError.isDataConversion : DbError → Bool
  | .dataConversionError _ => true
  | _ => false

/-- True exactly for the `dbOperationError` class. -/
def DbError.isDbOperation : DbError → Bool
  | .dbOperationError _ => true
  | _ => false

/-- True exactly for the `dbOpenError` class. -/
def DbError.isDbOpen : DbError → Bool
  | .dbOpenError _ => true
  | _ => false

/-- Models `Lease::INFINITY_LFT`, the infinite-lifetime sentinel (the maximum
32-bit value, spelled 4294967295 in the SQL text of the catalog). -/
def INFINITY_LFT : Nat := 4294967295

/-- Models `Lease::FIVEHUNDREDDAYS`, the large-but-finite surrogate used in place
of the infinite lifetime: 500 days of seconds. -/
def FIVEHUNDREDDAYS : Nat := 500 * 86400

/-- Models `Lease::STATE_EXPIRED_RECLAIMED`.  Modelled from the spec: the lease
state enumeration (default, declined, expired-reclaimed) is declared
outside the provided sources; the reclaimed state is its third member. -/
def STATE_EXPIRED_RECLAIMED : Nat := 2

/-- Models `HWAddr::MAX_HWADDR_LEN`.  Modelled from the spec: hardware-address
fields are length-bounded by a fixed maximum declared outside the provided
sources (20 octets). -/
def MAX_HWADDR_LEN : Nat := 20

/-- Models `ClientId::MAX_CLIENT_ID_LEN`.  Modelled from the spec: client-id
fields are length-bounded by a fixed maximum declared outside the provided
sources (128 octets). -/
def MAX_CLIENT_ID_LEN : Nat := 128

/-- The surrogate substitution applied on both sides of the exchange:
`if (valid_lft == Lease::INFINITY_LFT) valid_lft = Lease::FIVEHUNDREDDAYS`. -/
def adjustLft (lft : Nat) : Nat :=
  if lft = INFINITY_LFT then FIVEHUNDREDDAYS else lft

/-- Modelled from the spec: the opaque JSON user-context is a generic
structured value (tagged union of null / bool / number / string / array /
map); `isc::data::Element` lives outside the provided sources. -/
inductive Element where
  | null
  | boolVal (b : Bool)
  | intVal (n : Int)
  | strVal (s : String)
  | listVal (xs : List Element)
  | mapVal (kvs : List (String × Element))

mutual

/-- Modelled from the spec: `Element::str()` serializes the structured
value back to JSON text (exact layout immaterial to every claim). -/
def Element.str : Element → String
  | .null => "null"
  | .boolVal true => "true"
  | .boolVal false => "false"
  | .intVal n => toString n
  | .strVal s => "\"" ++ s ++ "\""
  | .listVal xs => "[ " ++ Element.strList xs ++ " ]"
  | .mapVal kvs => "\x7b " ++ Element.strMap kvs ++ " \x7d"

/-- Serializes list elements, comma separated. -/
def Element.strList : List Element → String
  | [] => ""
  | [x] => Element.str x
  | x :: y :: rest => Element.str x ++ ", " ++ Element.strList (y :: rest)

/-- Serializes map entries, comma separated. -/
def Element.strMap : List (String × Element) → String
  | [] => ""
  | [(k, v)] => "\"" ++ k ++ "\": " ++ Element.str v
  | (k, v) :: y :: rest =>
    "\"" ++ k ++ "\": " ++ Element.str v ++ ", " ++ Element.strMap (y :: rest)

end

/-- True exactly for JSON maps (`Element::getType() == Element::map`). -/
def Element.isMap : Element → Bool
  | .mapVal _ => true
  | _ => false

/-- Models `IOAddress::toText()` for an IPv4 address held as a 32-bit value:
dotted-quad text, used in error messages. -/
def addr4ToText (a : Nat) : String :=
  toString (a / 16777216 % 256) ++ "." ++ toString (a / 65536 % 256) ++ "." ++
  toString (a / 256 % 256) ++ "." ++ toString (a % 256)

/-- A hardware address as carried by a lease (`HWAddr`): the octet
sequence (the hardware type plays no role in the claims). -/
structure HWAddrT where
  hwaddr : List Nat
  deriving Repr

/-- The in-memory `Lease4` entity. -/
structure Lease4 where
  addr : Nat
  hwaddr : Option HWAddrT
  clientId : Option (List Nat)
  validLft : Nat
  cltt : Int
  subnetId : Nat
  fqdnFwd : Bool
  fqdnRev : Bool
  hostname : String
  state : Nat
  userContext : Option Element

/-- One row of the `lease4` table, fields in catalog column order:
address, hwaddr, client_id, valid_lifetime, expire, subnet_id, fqdn_fwd,
fqdn_rev, hostname, state, user_context. -/
structure Lease4Row where
  addr : Nat
  hwaddr : List Nat
  clientId : List Nat
  validLft : Nat
  expire : Int
  subnetId : Nat
  fqdnFwd : Bool
  fqdnRev : Bool
  hostname : String
  state : Nat
  userContext : String
  deriving DecidableEq, Repr

/-- Models `PgSqlLease4Exchange::createBindForSend`: marshal a `Lease4` into the
column-ordered parameter list.  The oversized-hardware-address check
throws `DbOperationError` inside the try block; the catch wraps any
conversion failure into a `DbOperationError` naming the lease address and
the underlying cause.  The expire column stores
`convertToDatabaseTime(cltt, valid_lft)` = cltt + the surrogate-adjusted
lifetime, while the valid_lifetime column stores the raw lifetime. -/
def createBindForSend4 (L : Lease4) : Except DbError Lease4Row :=
  let hwCheck : Except String (List Nat) :=
    match L.hwaddr with
    | some hw =>
      if hw.hwaddr ≠ [] then
        if hw.hwaddr.length > MAX_HWADDR_LEN then
          .error ("Hardware address length : " ++ toString hw.hwaddr.length ++
                  " exceeds maximum allowed of: " ++ toString MAX_HWADDR_LEN)
        else .ok hw.hwaddr
      else .ok []
    | none => .ok []
  match hwCheck with
  | .error m =>
    .error (.dbOperationError ("Could not create bind array from Lease4: " ++
                               addr4ToText L.addr ++ ", reason: " ++ m))
  | .ok hwBytes =>
    .ok { addr := L.addr
          hwaddr := hwBytes
          clientId := match L.clientId with | some c => c | none => []
          validLft := L.validLft
          expire := L.cltt + (adjustLft L.validLft : Nat)
          subnetId := L.subnetId
          fqdnFwd := L.fqdnFwd
          fqdnRev := L.fqdnRev
          hostname := L.hostname
          state := L.state
          userContext := match L.userContext with
                         | some ctx => ctx.str
                         | none => "" }

/-- Models `PgSqlLease4Exchange::convertFromDatabase`: unmarshal one row into a
`Lease4`.  The bytea buffers bound the hardware address and client id
lengths; `cltt` is recovered as the stored expiration minus the
surrogate-adjusted lifetime; a non-empty user-context column must parse
(`Element::fromJSON`, passed here as a parameter since it lives outside
the provided sources) to a JSON map.  Any inner failure is wrapped into a
`DbOperationError` carrying only the underlying cause. -/
def convertFromDatabase4 (fromJSON : String → Except String Element)
    (r : Lease4Row) : Except DbError Lease4 :=
  let inner : Except String Lease4 :=
    if r.hwaddr.length > MAX_HWADDR_LEN then
      .error ("hardware address exceeds buffer size of " ++
              toString MAX_HWADDR_LEN)
    else if r.clientId.length > MAX_CLIENT_ID_LEN then
      .error ("client id exceeds buffer size of " ++
              toString MAX_CLIENT_ID_LEN)
    else
      let cltt : Int := r.expire - (adjustLft r.validLft : Nat)
      let ctx : Except String (Option Element) :=
        if r.userContext ≠ "" then
          match fromJSON r.userContext with
          | .error m => .error m
          | .ok e =>
            if e.isMap then .ok (some e)
            else .error ("user context '" ++ r.userContext ++
                         "' is not a JSON map")
        else .ok none
      match ctx with
      | .error m => .error m
      | .ok c =>
        .ok { addr := r.addr
              hwaddr := some ⟨r.hwaddr⟩
              clientId := some r.clientId
              validLft := r.validLft
              cltt := cltt
              subnetId := r.subnetId
              fqdnFwd := r.fqdnFwd
              fqdnRev := r.fqdnRev
              hostname := r.hostname
              state := r.state
              userContext := c }
  match inner with
  | .error m =>
    .error (.dbOperationError ("Could not convert data to Lease4, reason: "
                               ++ m))
  | .ok l => .ok l

/-- Models `PgSqlLease6Exchange::getLeaseTypeColumnValue`: the raw lease-type
column value must be one of TYPE_NA (0), TYPE_TA (1), TYPE_PD (2); any
other value throws `DbOperationError`.  The type constants are modelled
from the lease-type enumeration of the spec: non-temporary, temporary,
prefix-delegation. -/
def getLeaseTypeColumnValue (raw : Nat) : Except DbError Nat :=
  if raw = 0 ∨ raw = 1 ∨ raw = 2 then .ok raw
  else .error (.dbOperationError ("Invalid lease type: " ++ toString raw))

/-! ### Lease store operations -/

/-- Outcome of executing a prepared statement against the backend:
success with the new table, a duplicate-primary-key rejection, or any
other backend failure with its message. -/
inductive PgExecStatus where
  | commandOk (newDb : List Lease4Row)
  | errorDuplicateKey
  | errorOther (msg : String)

/-- The `INSERT INTO lease4 ... VALUES ...` statement: the address is the
sole primary key, so the insert is rejected with a duplicate-key error
when a row with that address already exists, leaving the table unchanged;
otherwise the row is appended. -/
def execInsertLease4 (db : List Lease4Row) (row : Lease4Row) :
    PgExecStatus :=
  if db.any (fun r => r.addr = row.addr) then .errorDuplicateKey
  else .commandOk (db ++ [row])

/-- Models `PgSqlLeaseMgr::addLeaseCommon`: a successful command returns true; a
duplicate-key failure returns false; any other failure is rethrown by
`checkStatementError` as a `DbOperationError`.  The pair carries the
resulting table (unchanged except on success). -/
def addLeaseCommon (db : List Lease4Row) (res : PgExecStatus) :
    Except DbError (Bool × List Lease4Row) :=
  match res with
  | .commandOk db2 => .ok (true, db2)
  | .errorDuplicateKey => .ok (false, db)
  | .errorOther m => .error (.dbOperationError m)

/-- Models `PgSqlLeaseMgr::addLease(Lease4)`: marshal the lease, execute
INSERT_LEASE4, and interpret the outcome through `addLeaseCommon`. -/
def addLease4 (db : List Lease4Row) (L : Lease4) :
    Except DbError (Bool × List Lease4Row) :=
  match createBindForSend4 L with
  | .error e => .error e
  | .ok row => addLeaseCommon db (execInsertLease4 db row)

/-- The `UPDATE lease4 SET ... WHERE address = $12` statement: every row
whose address equals the key is replaced by the new row; the second
component is the affected-row count reported by the backend. -/
def execUpdateLease4 (db : List Lease4Row) (row : Lease4Row) (key : Nat) :
    List Lease4Row × Nat :=
  (db.map (fun r => if r.addr = key then row else r),
   db.countP (fun r => decide (r.addr = key)))

/-- Models `PgSqlLeaseMgr::updateLeaseCommon`: execute the update, then demand
exactly one affected row - zero raises `NoSuchLeaseError` naming the
address, more than one raises `DbOperationError`. -/
def updateLeaseCommon4 (db : List Lease4Row) (row : Lease4Row)
    (key : Nat) : Except DbError (List Lease4Row) :=
  let res := execUpdateLease4 db row key
  if res.2 = 1 then .ok res.1
  else if res.2 = 0 then
    .error (.noSuchLeaseError ("unable to update lease for address " ++
                               addr4ToText key ++ " as it does not exist"))
  else
    .error (.dbOperationError
              ("apparently updated more than one lease that had the address "
               ++ addr4ToText key))

/-- Models `PgSqlLeaseMgr::updateLease4`: marshal the lease, append the WHERE key
(the own address of the lease), and drop to the common update code. -/
def updateLease4 (db : List Lease4Row) (L : Lease4) :
    Except DbError (List Lease4Row) :=
  match createBindForSend4 L with
  | .error e => .error e
  | .ok row => updateLeaseCommon4 db row L.addr

/-! ### Expired-lease retrieval -/

/-- Soonest-expiring-first ordering of lease rows (`ORDER BY expire`). -/
def expireLE (a b : Lease4Row) : Prop := a.expire ≤ b.expire

instance : DecidableRel expireLE :=
  fun a b => inferInstanceAs (Decidable (a.expire ≤ b.expire))

instance : IsTotal Lease4Row expireLE :=
  ⟨fun a b => Int.le_total a.expire b.expire⟩

instance : IsTrans Lease4Row expireLE :=
  ⟨fun _ _ _ h1 h2 => le_trans h1 h2⟩

/-- The WHERE clause of GET_LEASE4_EXPIRE:
`state != $1 AND expire < $2 AND valid_lifetime != 4294967295`. -/
def lease4ExpirePred (state : Nat) (now : Int) (r : Lease4Row) : Bool :=
  (r.state != state) && decide (r.expire < now) &&
  (r.validLft != 4294967295)

/-- The GET_LEASE4_EXPIRE statement: filter by the WHERE clause, order by
expire ascending, and cap at the LIMIT parameter. -/
def execGetLease4Expire (db : List Lease4Row) (state : Nat) (now : Int)
    (limit : Nat) : List Lease4Row :=
  ((db.filter (lease4ExpirePred state now)).insertionSort expireLE).take
    limit

/-- Models `PgSqlLeaseMgr::getExpiredLeasesCommon`: bind the reclaimed state, the
current time and the limit - `max_leases` when positive (truncated through
the `static_cast<uint32_t>`), the maximum 32-bit value when zero - and
execute the expire statement. -/
def getExpiredLeases4 (db : List Lease4Row) (now : Int) (maxLeases : Nat) :
    List Lease4Row :=
  execGetLease4Expire db STATE_EXPIRED_RECLAIMED now
    (if maxLeases > 0 then maxLeases % 4294967296 else 4294967295)

/-! ### Paged IPv6 retrieval

The lease6 address column is VARCHAR: comparison and ordering are textual.
The comparator below is codepoint-lexicographic comparison of the
character sequences, the denotation of text comparison on these ASCII
address strings. -/

/-- Lexicographic strict comparison of character lists by codepoint. -/
def charListLt : List Char → List Char → Bool
  | [], [] => false
  | [], _ :: _ => true
  | _ :: _, [] => false
  | a :: as, b :: bs =>
    if a.toNat < b.toNat then true
    else if b.toNat < a.toNat then false
    else charListLt as bs

/-- Textual strict comparison of two strings. -/
def strLtB (a b : String) : Bool := charListLt a.data b.data

/-- Textual less-or-equal, as the negation of the reversed strict
comparison. -/
def strLeB (a b : String) : Bool := !(strLtB b a)

/-- One row of the `lease6` table, restricted to the columns the paged
retrieval claims depend on; the address is the VARCHAR text form. -/
structure Lease6Row where
  addr : String
  duid : List Nat
  validLft : Nat
  expire : Int
  subnetId : Nat
  state : Nat
  deriving DecidableEq, Repr

/-- Ascending textual address ordering of lease6 rows
(`ORDER BY address`). -/
def addrTextLE (a b : Lease6Row) : Prop := strLeB a.addr b.addr = true

instance : DecidableRel addrTextLE :=
  fun a b => inferInstanceAs (Decidable (strLeB a.addr b.addr = true))

/-- The GET_LEASE6_PAGE statement:
`WHERE address > $1 ORDER BY address LIMIT $2`. -/
def execGetLease6Page (db : List Lease6Row) (bound : String)
    (limit : Nat) : List Lease6Row :=
  ((db.filter (fun r => strLtB bound r.addr)).insertionSort
    addrTextLE).take limit

/-- Models `IOAddress::isV6Zero` on the text form: the IPv6 zero address prints
as `::`. -/
def isV6ZeroText (addrText : String) : Bool := addrText = "::"

/-- Models `PgSqlLeaseMgr::getLeases6(lower_bound_address, page_size)`: when the
lower bound is the IPv6 zero address the textual bound "0" is substituted
(the own text `::` of the zero address would not act as the minimum in textual
order); otherwise the bound is the address text.  Then the page statement
runs. -/
def getLeases6Page (db : List Lease6Row) (lowerBound : String)
    (pageSize : Nat) : List Lease6Row :=
  let lbData := if isV6ZeroText lowerBound then "0" else lowerBound
  execGetLease6Page db lbData pageSize

/-! ### The statement catalog and store construction -/

/-- One row of `tagged_statements`: parameter count, symbolic name and the
query text; the sentinel terminator has `text := none` (NULL).  The
parameter-type OID array of the source row is omitted - no claim depends
on it. -/
structure TaggedStatement where
  nbparams : Nat
  name : String
  text : Option String
  deriving DecidableEq, Repr

/-- The catalog `tagged_statements[]`, in source order, sentinel last. -/
def tagged_statements : List TaggedStatement :=
  [ ⟨1, "delete_lease4", some "DELETE FROM lease4 WHERE address = $1"⟩,
    ⟨2, "delete_lease4_state_expired",
     some "DELETE FROM lease4 WHERE state = $1 AND expire < $2"⟩,
    ⟨1, "delete_lease6", some "DELETE FROM lease6 WHERE address = $1"⟩,
    ⟨2, "delete_lease6_state_expired",
     some "DELETE FROM lease6 WHERE state = $1 AND expire < $2"⟩,
    ⟨0, "get_lease4", some "SELECT ... FROM lease4"⟩,
    ⟨1, "get_lease4_addr", some "SELECT ... FROM lease4 WHERE address = $1"⟩,
    ⟨1, "get_lease4_clientid",
     some "SELECT ... FROM lease4 WHERE client_id = $1"⟩,
    ⟨2, "get_lease4_clientid_subid",
     some "SELECT ... FROM lease4 WHERE client_id = $1 AND subnet_id = $2"⟩,
    ⟨1, "get_lease4_hwaddr",
     some "SELECT ... FROM lease4 WHERE hwaddr = $1"⟩,
    ⟨2, "get_lease4_hwaddr_subid",
     some "SELECT ... FROM lease4 WHERE hwaddr = $1 AND subnet_id = $2"⟩,
    ⟨2, "get_lease4_page",
     some "SELECT ... FROM lease4 WHERE address > $1 ORDER BY address LIMIT $2"⟩,
    ⟨1, "get_lease4_subid",
     some "SELECT ... FROM lease4 WHERE subnet_id = $1"⟩,
    ⟨3, "get_lease4_expire",
     some ("SELECT ... FROM lease4 WHERE state != $1 AND expire < $2 " ++
           "AND valid_lifetime != 4294967295 ORDER BY expire LIMIT $3")⟩,
    ⟨0, "get_lease6", some "SELECT ... FROM lease6"⟩,
    ⟨2, "get_lease6_addr",
     some "SELECT ... FROM lease6 WHERE address = $1 AND lease_type = $2"⟩,
    ⟨3, "get_lease6_duid_iaid",
     some "SELECT ... FROM lease6 WHERE duid = $1 AND iaid = $2 AND lease_type = $3"⟩,
    ⟨4, "get_lease6_duid_iaid_subid",
     some ("SELECT ... FROM lease6 WHERE lease_type = $1 AND duid = $2 " ++
           "AND iaid = $3 AND subnet_id = $4")⟩,
    ⟨2, "get_lease6_page",
     some "SELECT ... FROM lease6 WHERE address > $1 ORDER BY address LIMIT $2"⟩,
    ⟨1, "get_lease6_subid",
     some "SELECT ... FROM lease6 WHERE subnet_id = $1"⟩,
    ⟨1, "get_lease6_duid", some "SELECT ... FROM lease6 WHERE duid = $1"⟩,
    ⟨3, "get_lease6_expire",
     some ("SELECT ... FROM lease6 WHERE state != $1 AND expire < $2 " ++
           "AND valid_lifetime != 4294967295 ORDER BY expire LIMIT $3")⟩,
    ⟨11, "insert_lease4", some "INSERT INTO lease4(...) VALUES ($1 .. $11)"⟩,
    ⟨17, "insert_lease6", some "INSERT INTO lease6(...) VALUES ($1 .. $17)"⟩,
    ⟨12, "update_lease4",
     some "UPDATE lease4 SET ... WHERE address = $12"⟩,
    ⟨18, "update_lease6",
     some "UPDATE lease6 SET ... WHERE address = $18"⟩,
    ⟨0, "all_lease4_stats",
     some "SELECT ... FROM lease4_stat ORDER BY subnet_id, state"⟩,
    ⟨1, "subnet_lease4_stats",
     some "SELECT ... FROM lease4_stat WHERE subnet_id = $1 ORDER BY state"⟩,
    ⟨2, "subnet_range_lease4_stats",
     some ("SELECT ... FROM lease4_stat WHERE subnet_id >= $1 and " ++
           "subnet_id <= $2 ORDER BY subnet_id, state")⟩,
    ⟨0, "all_lease6_stats",
     some "SELECT ... FROM lease6_stat ORDER BY subnet_id, lease_type, state"⟩,
    ⟨1, "subnet_lease6_stats",
     some ("SELECT ... FROM lease6_stat WHERE subnet_id = $1 " ++
           "ORDER BY lease_type, state")⟩,
    ⟨2, "subnet_range_lease6_stats",
     some ("SELECT ... FROM lease6_stat WHERE subnet_id >= $1 and " ++
           "subnet_id <= $2 ORDER BY subnet_id, lease_type, state")⟩,
    ⟨0, "", none⟩ ]

/-- Models `NUM_STATEMENTS`.  Modelled from the spec: the enum-defined expected
statement count (the `StatementIndex` enumeration lives in the header,
outside the provided sources, with one member per catalog operation). -/
def NUM_STATEMENTS : Nat := 31

/-- The constructor preparation loop: statements are prepared while the
text is not the NULL sentinel; `i` ends as the count of non-sentinel
entries. -/
def preparedCount (stmts : List TaggedStatement) : Nat :=
  (stmts.takeWhile (fun s => s.text.isSome)).length

/-- Models `PgSqlLeaseMgr::PgSqlLeaseMgr`: after opening the connection, the
stored (major, minor) schema version must equal the expected
version or construction fails with `DbOpenError`; then every non-sentinel
catalog entry is prepared and the count must equal `NUM_STATEMENTS` or
construction fails with `DbOpenError`. -/
def pgSqlLeaseMgrConstruct (codeVersion dbVersion : Nat × Nat)
    (stmts : List TaggedStatement) (numStatements : Nat) :
    Except DbError Unit :=
  if codeVersion ≠ dbVersion then
    .error (.dbOpenError ("PostgreSQL schema version mismatch: need version: "
      ++ toString codeVersion.1 ++ "." ++ toString codeVersion.2 ++
      " found version:  " ++ toString dbVersion.1 ++ "." ++
      toString dbVersion.2))
  else
    let i := preparedCount stmts
    if i ≠ numStatements then
      .error (.dbOpenError ("Number of statements prepared: " ++ toString i
        ++ " does not match expected count:" ++ toString numStatements))
    else .ok ()

/-- True exactly for the `schemaMismatchError` class. -/
def DbError.isSchemaMismatch : DbError → Bool
  | .schemaMismatchError _ => true
  | _ => false

/-! ## Theorems -/

/-- The scan of `getGlobalParameter4` resolves to: the first entry owning
an explicitly requested tag if one exists, otherwise the last entry owning
the "all servers" marker, otherwise the incoming candidate. -/
theorem getGlobalParameter4Loop_eq (selTags : List String) :
    ∀ (l : List StampedValue) (cand : Option StampedValue),
      getGlobalParameter4Loop selTags cand l =
        match l.find? (fun e => selTags.any (fun t => hasServerTag e.tags t))
        with
        | some e => some e
        | none =>
          match (l.filter (fun e => hasAllServerTag e.tags)).getLast? with
          | some e => some e
          | none => cand
  | [], cand => rfl
  | e :: rest, cand => by
    by_cases hx : selTags.any (fun t => hasServerTag e.tags t)
    · simp [getGlobalParameter4Loop, hx, List.find?_cons]
    · by_cases ha : hasAllServerTag e.tags
      · rw [show getGlobalParameter4Loop selTags cand (e :: rest) =
              getGlobalParameter4Loop selTags (some e) rest from by
            simp [getGlobalParameter4Loop, hx, ha]]
        rw [getGlobalParameter4Loop_eq selTags rest (some e)]
        simp only [List.find?_cons, hx, List.filter_cons, ha, if_true]
        cases hf : rest.find?
            (fun e => selTags.any (fun t => hasServerTag e.tags t)) with
        | some x => simp
        | none =>
          cases hl : (rest.filter (fun e => hasAllServerTag e.tags)).getLast?
              with
          | some y => simp [List.getLast?_cons, hl]
          | none => simp [List.getLast?_cons, hl]
      · rw [show getGlobalParameter4Loop selTags cand (e :: rest) =
              getGlobalParameter4Loop selTags cand rest from by
            simp [getGlobalParameter4Loop, hx, ha]]
        rw [getGlobalParameter4Loop_eq selTags rest cand]
        simp only [List.find?_cons, hx, List.filter_cons, ha]
        simp

/-- C1: counterexample.  A subnet owned only by tag "srvA" is not visible
to the selector requesting only "srvB" under the spec's server-tag
visibility rule, yet the single-subnet lookup `getSubnet4` returns it: the
rule is not applied by that accessor. -/
theorem c1_counterexample :
    getSubnet4ById [⟨7, "10.0.0.0/24", ["srvA"], 0, ""⟩] ["srvB"] 7 =
      some ⟨7, "10.0.0.0/24", ["srvA"], 0, ""⟩ ∧
    specVisible ["srvB"] ["srvA"] false = false := by
  decide

/-- C1 (amended): the visibility rule is not uniform.  The single-subnet
lookups (by id and by prefix), the single-shared-network lookup, and the
subnet / shared-network modified-since queries ignore the server selector
entirely; the getAll collection accessor includes an entity exactly when
it owns a requested tag or the "all servers" marker, without natural-key
shadowing; the single global-parameter lookup applies the full rule:
first explicit-tag match preferred, otherwise the last "all servers"
candidate among the entries with the requested name. -/
theorem c1_amended :
    (∀ (store : List Subnet) (sel1 sel2 : List String) (i : Nat),
        getSubnet4ById store sel1 i = getSubnet4ById store sel2 i) ∧
    (∀ (store : List Subnet) (sel1 sel2 : List String) (p : String),
        getSubnet4ByPrefix store sel1 p = getSubnet4ByPrefix store sel2 p) ∧
    (∀ (store : List Subnet) (sel1 sel2 : List String) (t : Int),
        getModifiedSubnets4 store sel1 t = getModifiedSubnets4 store sel2 t) ∧
    (∀ (store : List SharedNetwork) (sel1 sel2 : List String) (n : String),
        getSharedNetwork4 store sel1 n = getSharedNetwork4 store sel2 n) ∧
    (∀ (store : List SharedNetwork) (sel1 sel2 : List String) (t : Int),
        getModifiedSharedNetworks4 store sel1 t =
          getModifiedSharedNetworks4 store sel2 t) ∧
    (∀ (store : List Subnet) (selTags : List String) (s : Subnet),
        s ∈ getAllSubnets4 store selTags ↔
          s ∈ store ∧
          (selTags.any (fun t => hasServerTag s.tags t) ||
           hasAllServerTag s.tags) = true) ∧
    (∀ (store : List StampedValue) (selTags : List String) (name : String),
        getGlobalParameter4 store selTags name =
          match (store.filter (fun e => e.name = name)).find?
                  (fun e => selTags.any (fun t => hasServerTag e.tags t))
          with
          | some e => some e
          | none =>
            ((store.filter (fun e => e.name = name)).filter
               (fun e => hasAllServerTag e.tags)).getLast?) := by
  refine ⟨fun _ _ _ _ => rfl, fun _ _ _ _ => rfl, fun _ _ _ _ => rfl,
          fun _ _ _ _ => rfl, fun _ _ _ _ => rfl, ?_, ?_⟩
  · intro store selTags s
    simp [getAllSubnets4, List.mem_filter]
  · intro store selTags name
    rw [getGlobalParameter4, getGlobalParameter4Loop_eq]
    cases hf : (store.filter (fun e => e.name = name)).find?
        (fun e => selTags.any (fun t => hasServerTag e.tags t)) with
    | some x => simp
    | none =>
      cases hl : ((store.filter (fun e => e.name = name)).filter
          (fun e => hasAllServerTag e.tags)).getLast? with
      | some y => simp
      | none => simp

/-- C1 amended, instantiated: the by-id lookup gives the same answer for
two different selectors, and an all-servers subnet is a member of the
getAll result under an unrelated selector. -/
theorem c1_amended_witness :
    getSubnet4ById [] ["srvA"] 7 = getSubnet4ById [] ["srvB"] 7 ∧
    (⟨1, "10.0.0.0/8", [allServersTag], 0, ""⟩ : Subnet) ∈
      getAllSubnets4 [⟨1, "10.0.0.0/8", [allServersTag], 0, ""⟩] ["srvA"] :=
  ⟨c1_amended.1 [] ["srvA"] ["srvB"] 7,
   (c1_amended.2.2.2.2.2.1 [⟨1, "10.0.0.0/8", [allServersTag], 0, ""⟩]
      ["srvA"] ⟨1, "10.0.0.0/8", [allServersTag], 0, ""⟩).mpr (by decide)⟩

/-- Updating a subnet whose id already exists replaces the stored entity
in place, so the store size grows only when the id is new. -/
theorem createUpdateSubnet4_length :
    ∀ (store : List Subnet) (selTags : List String) (s : Subnet),
      (createUpdateSubnet4 store selTags s).length =
        if store.any (fun x => x.id = s.id) then store.length
        else store.length + 1
  | [], _, _ => by simp [createUpdateSubnet4]
  | old :: rest, selTags, s => by
    by_cases h : old.id = s.id
    · simp [createUpdateSubnet4, h]
    · simp only [createUpdateSubnet4, if_neg h, List.length_cons,
        List.any_cons, createUpdateSubnet4_length rest selTags s]
      have hd : (decide (old.id = s.id)) = false := by simp [h]
      rw [hd]
      simp only [Bool.false_or]
      split <;> omega

/-- C2: counterexample.  Creating subnet id 7 under the "all" selector and
then subnet id 7 under the selector resolving to tag "srvA" leaves a
single entity in the store (the second create replaces the first, merging
the tags), not the two scope-distinct entities the claim asserts; the
lookup under selector "srvB" returns that merged entity, which owns the
explicit tag "srvA" and is not an all-scope-only entity. -/
theorem c2_counterexample :
    (createUpdateSubnet4
        (createUpdateSubnet4 [] [allServersTag]
          ⟨7, "192.0.2.0/24", [], 10, ""⟩)
        ["srvA"] ⟨7, "192.0.2.0/24", [], 20, ""⟩).length = 1 ∧
    getSubnet4ById
        (createUpdateSubnet4
          (createUpdateSubnet4 [] [allServersTag]
            ⟨7, "192.0.2.0/24", [], 10, ""⟩)
          ["srvA"] ⟨7, "192.0.2.0/24", [], 20, ""⟩) ["srvB"] 7 =
      some ⟨7, "192.0.2.0/24", [allServersTag, "srvA"], 20, ""⟩ := by
  decide

/-- C2 (amended): `createUpdateSubnet4` keys on the subnet id alone, so
the second create replaces the first, copying the old "all servers" tag
forward and merging the selector tag: exactly one entity with id 7
remains, owning both the "all servers" marker and "srvA", and the
single-subnet lookup returns it for every selector ("srvA" and "srvB"
alike); in general the store size grows only when the id is new. -/
theorem c2_amended :
    createUpdateSubnet4
        (createUpdateSubnet4 [] [allServersTag]
          ⟨7, "192.0.2.0/24", [], 10, ""⟩)
        ["srvA"] ⟨7, "192.0.2.0/24", [], 20, ""⟩ =
      [⟨7, "192.0.2.0/24", [allServersTag, "srvA"], 20, ""⟩] ∧
    (∀ selTags, getSubnet4ById
        [⟨7, "192.0.2.0/24", [allServersTag, "srvA"], 20, ""⟩] selTags 7 =
      some ⟨7, "192.0.2.0/24", [allServersTag, "srvA"], 20, ""⟩) ∧
    (∀ (store : List Subnet) (selTags : List String) (s : Subnet),
        (createUpdateSubnet4 store selTags s).length =
          if store.any (fun x => x.id = s.id) then store.length
          else store.length + 1) :=
  ⟨by decide, fun _ => by simp [getSubnet4ById],
   createUpdateSubnet4_length⟩

/-- The delete of a global parameter erases exactly the first entry
carrying the requested name and tag, and reports 1 when such an entry
exists, 0 otherwise. -/
theorem deleteGlobalParameter4_eq :
    ∀ (store : List StampedValue) (tag name : String),
      deleteGlobalParameter4 store tag name =
        ((if store.any (fun e => e.name = name && hasServerTag e.tags tag)
          then 1 else 0),
         store.eraseP (fun e => e.name = name && hasServerTag e.tags tag))
  | [], _, _ => rfl
  | e :: rest, tag, name => by
    by_cases h : (e.name = name && hasServerTag e.tags tag) = true
    · simp [deleteGlobalParameter4, h, List.eraseP_cons, List.any_cons]
    · simp [deleteGlobalParameter4, h, List.eraseP_cons, List.any_cons,
        deleteGlobalParameter4_eq rest tag name]

/-- C10: a single `deleteGlobalParameter4` call removes at most one
global-parameter entry and returns 0 or 1: it erases exactly the first
entry with the given name carrying the resolved tag (even when several
entries with that name carry the tag), and returns 0 leaving the store
unchanged when no entry matches. -/
theorem c10_deleteGlobalParameter4 :
    ∀ (store : List StampedValue) (tag name : String),
      deleteGlobalParameter4 store tag name =
        ((if store.any (fun e => e.name = name && hasServerTag e.tags tag)
          then 1 else 0),
         store.eraseP (fun e => e.name = name && hasServerTag e.tags tag)) ∧
      (deleteGlobalParameter4 store tag name).1 ≤ 1 ∧
      ((∀ e ∈ store, ¬(e.name = name ∧ hasServerTag e.tags tag = true)) →
        deleteGlobalParameter4 store tag name = (0, store)) := by
  intro store tag name
  refine ⟨deleteGlobalParameter4_eq store tag name, ?_, ?_⟩
  · rw [deleteGlobalParameter4_eq store tag name]
    split <;> simp
  · intro hnone
    rw [deleteGlobalParameter4_eq store tag name]
    have hp : ∀ e ∈ store,
        ¬((fun e => e.name = name && hasServerTag e.tags tag) e = true) := by
      intro e he
      simpa using hnone e he
    rw [List.eraseP_of_forall_not hp]
    have : store.any (fun e => e.name = name && hasServerTag e.tags tag) =
        false := by
      rw [List.any_eq_false]
      exact hp
    rw [this]
    simp

/-- C10, instantiated: deleting a global parameter whose only entry is
owned by an unrelated tag returns 0 and leaves the store unchanged. -/
theorem c10_witness :
    deleteGlobalParameter4 [⟨"p", "v", ["srvX"], 0⟩] "srvA" "p" =
      (0, [⟨"p", "v", ["srvX"], 0⟩]) :=
  (c10_deleteGlobalParameter4 [⟨"p", "v", ["srvX"], 0⟩] "srvA" "p").2.2
    (by decide)

/-- A successful marshalling of a `Lease4` binds the own address of the lease
and raw lifetime, and an expire column equal to cltt plus the
surrogate-adjusted lifetime. -/
theorem createBindForSend4_ok (L : Lease4) (row : Lease4Row)
    (h : createBindForSend4 L = .ok row) :
    row.addr = L.addr ∧ row.validLft = L.validLft ∧
    row.expire = L.cltt + (adjustLft L.validLft : Nat) := by
  simp only [createBindForSend4] at h
  split at h
  · exact absurd h (by simp)
  · cases h
    exact ⟨rfl, rfl, rfl⟩

/-- A successful row conversion recovers cltt as the stored expiration
minus the surrogate-adjusted stored lifetime and takes the lifetime
directly from the column. -/
theorem convertFromDatabase4_ok (parse : String → Except String Element)
    (r : Lease4Row) (L2 : Lease4)
    (h : convertFromDatabase4 parse r = .ok L2) :
    L2.cltt = r.expire - (adjustLft r.validLft : Nat) ∧
    L2.validLft = r.validLft := by
  simp only [convertFromDatabase4] at h
  split at h
  · exact absurd h (by simp)
  · rename_i l hinner
    cases h
    split at hinner
    · exact absurd hinner (by simp)
    · split at hinner
      · exact absurd hinner (by simp)
      · split at hinner
        · exact absurd hinner (by simp)
        · cases hinner
          exact ⟨rfl, rfl⟩

/-- C3: `addLease` marshals the lease and interprets the insert outcome:
a duplicate primary key (a stored row with the same address) yields the
result false with the table unaltered; a fresh address yields true with
the row appended; any other backend failure raises `DbOperationError`
instead of returning a boolean. -/
theorem c3_addLease4 :
    (∀ (db : List Lease4Row) (L : Lease4) (row : Lease4Row),
        createBindForSend4 L = .ok row →
        ((∃ r ∈ db, r.addr = L.addr) → addLease4 db L = .ok (false, db)) ∧
        ((¬∃ r ∈ db, r.addr = L.addr) →
          addLease4 db L = .ok (true, db ++ [row]))) ∧
    (∀ (db : List Lease4Row) (m : String),
        addLeaseCommon db (.errorOther m) = .error (.dbOperationError m)) := by
  refine ⟨?_, fun _ _ => rfl⟩
  intro db L row h
  have haddr : row.addr = L.addr := (createBindForSend4_ok L row h).1
  constructor
  · rintro ⟨r, hr, he⟩
    simp only [addLease4, h]
    have hany : db.any (fun r => r.addr = row.addr) = true := by
      rw [List.any_eq_true]
      exact ⟨r, hr, by simp [haddr, he]⟩
    simp [addLeaseCommon, execInsertLease4, hany]
  · intro hno
    simp only [addLease4, h]
    have hany : db.any (fun r => r.addr = row.addr) = false := by
      rw [List.any_eq_false]
      intro r hr
      simp only [haddr, decide_eq_true_eq]
      intro he
      exact hno ⟨r, hr, he⟩
    simp [addLeaseCommon, execInsertLease4, hany]

/-- C3, instantiated: adding a lease to an empty table succeeds with
true; adding it again returns false and leaves the table unchanged. -/
theorem c3_witness :
    addLease4 []
        ⟨167772161, none, none, 3600, 100, 1, false, false, "w", 0, none⟩ =
      .ok (true,
        [⟨167772161, [], [], 3600, 3700, 1, false, false, "w", 0, ""⟩]) ∧
    addLease4 [⟨167772161, [], [], 3600, 3700, 1, false, false, "w", 0, ""⟩]
        ⟨167772161, none, none, 3600, 100, 1, false, false, "w", 0, none⟩ =
      .ok (false,
        [⟨167772161, [], [], 3600, 3700, 1, false, false, "w", 0, ""⟩]) := by
  constructor
  · exact (c3_addLease4.1 []
      ⟨167772161, none, none, 3600, 100, 1, false, false, "w", 0, none⟩
      ⟨167772161, [], [], 3600, 3700, 1, false, false, "w", 0, ""⟩ rfl).2
      (by simp)
  · exact (c3_addLease4.1
      [⟨167772161, [], [], 3600, 3700, 1, false, false, "w", 0, ""⟩]
      ⟨167772161, none, none, 3600, 100, 1, false, false, "w", 0, none⟩
      ⟨167772161, [], [], 3600, 3700, 1, false, false, "w", 0, ""⟩ rfl).1
      ⟨⟨167772161, [], [], 3600, 3700, 1, false, false, "w", 0, ""⟩,
       by simp, rfl⟩

/-- C4: the update is keyed on the address of the lease; zero affected rows
raises `NoSuchLeaseError` with the statement having changed nothing,
exactly one affected row succeeds silently, and more than one affected
row raises `DbOperationError`. -/
theorem c4_updateLease4 :
    (∀ (db : List Lease4Row) (row : Lease4Row) (key : Nat),
        (db.countP (fun r => decide (r.addr = key)) = 0 →
          updateLeaseCommon4 db row key =
            .error (.noSuchLeaseError
              ("unable to update lease for address " ++ addr4ToText key ++
               " as it does not exist")) ∧
          execUpdateLease4 db row key = (db, 0)) ∧
        (db.countP (fun r => decide (r.addr = key)) = 1 →
          updateLeaseCommon4 db row key =
            .ok (db.map (fun r => if r.addr = key then row else r))) ∧
        (1 < db.countP (fun r => decide (r.addr = key)) →
          updateLeaseCommon4 db row key =
            .error (.dbOperationError
              ("apparently updated more than one lease that had the address "
               ++ addr4ToText key)))) ∧
    (∀ (db : List Lease4Row) (L : Lease4) (row : Lease4Row),
        createBindForSend4 L = .ok row →
        updateLease4 db L = updateLeaseCommon4 db row L.addr) := by
  constructor
  · intro db row key
    refine ⟨fun h0 => ⟨?_, ?_⟩, fun h1 => ?_, fun h2 => ?_⟩
    · simp [updateLeaseCommon4, execUpdateLease4, h0]
    · have hmap : db.map (fun r => if r.addr = key then row else r) = db := by
        have hall := List.countP_eq_zero.mp h0
        calc db.map (fun r => if r.addr = key then row else r)
            = db.map id := by
              apply List.map_congr_left
              intro r hr
              have : ¬r.addr = key := by simpa using hall r hr
              simp [this]
          _ = db := List.map_id db
      simp [execUpdateLease4, hmap, h0]
    · simp [updateLeaseCommon4, execUpdateLease4, h1]
    · have hne1 : db.countP (fun r => decide (r.addr = key)) ≠ 1 := by omega
      have hne0 : db.countP (fun r => decide (r.addr = key)) ≠ 0 := by omega
      simp [updateLeaseCommon4, execUpdateLease4, hne1, hne0]
  · intro db L row h
    simp [updateLease4, h]

/-- C4, instantiated: updating a lease in an empty table fails with
`NoSuchLeaseError` naming the address. -/
theorem c4_witness :
    updateLease4 []
        ⟨167772161, none, none, 3600, 100, 1, false, false, "w", 0, none⟩ =
      .error (.noSuchLeaseError
        "unable to update lease for address 10.0.0.1 as it does not exist") := by
  rw [c4_updateLease4.2 []
    ⟨167772161, none, none, 3600, 100, 1, false, false, "w", 0, none⟩
    ⟨167772161, [], [], 3600, 3700, 1, false, false, "w", 0, ""⟩ rfl]
  exact ((c4_updateLease4.1 [] _ 167772161).1 rfl).1

/-- C7: across a write/read round trip, cltt is preserved exactly - the
stored expiration is cltt plus the surrogate-adjusted lifetime and the
recovered cltt subtracts the same adjusted value - while the
valid_lifetime column holds the raw lifetime and the returned lease takes
it directly from that column with no sentinel-restoration step. -/
theorem c7_cltt_roundtrip :
    ∀ (parse : String → Except String Element) (L : Lease4)
      (row : Lease4Row) (L2 : Lease4),
      createBindForSend4 L = .ok row →
      convertFromDatabase4 parse row = .ok L2 →
      row.expire = L.cltt + (adjustLft L.validLft : Nat) ∧
      row.validLft = L.validLft ∧
      L2.cltt = L.cltt ∧
      L2.validLft = L.validLft := by
  intro parse L row L2 h1 h2
  obtain ⟨ha, hv, he⟩ := createBindForSend4_ok L row h1
  obtain ⟨hc, hv2⟩ := convertFromDatabase4_ok parse row L2 h2
  refine ⟨he, hv, ?_, hv2.trans hv⟩
  rw [hc, he, hv]
  omega

/-- C7, instantiated: a lease with the infinite-lifetime sentinel round
trips with its cltt intact and its lifetime column still holding the
sentinel. -/
theorem c7_witness :
    createBindForSend4
        ⟨167772161, none, none, 4294967295, 100, 1, false, false, "w", 0,
         none⟩ =
      .ok ⟨167772161, [], [], 4294967295, 43200100, 1, false, false, "w", 0,
           ""⟩ ∧
    convertFromDatabase4 (fun s => .error s)
        ⟨167772161, [], [], 4294967295, 43200100, 1, false, false, "w", 0,
         ""⟩ =
      .ok ⟨167772161, some ⟨[]⟩, some [], 4294967295, 100, 1, false, false,
           "w", 0, none⟩ ∧
    (⟨167772161, some ⟨[]⟩, some [], 4294967295, 100, 1, false, false, "w",
      0, none⟩ : Lease4).cltt =
      (⟨167772161, none, none, 4294967295, 100, 1, false, false, "w", 0,
        none⟩ : Lease4).cltt ∧
    (⟨167772161, some ⟨[]⟩, some [], 4294967295, 100, 1, false, false, "w",
      0, none⟩ : Lease4).validLft =
      (⟨167772161, none, none, 4294967295, 100, 1, false, false, "w", 0,
        none⟩ : Lease4).validLft := by
  have h1 : createBindForSend4
      ⟨167772161, none, none, 4294967295, 100, 1, false, false, "w", 0,
       none⟩ =
      .ok ⟨167772161, [], [], 4294967295, 43200100, 1, false, false, "w", 0,
           ""⟩ := by rfl
  have h2 : convertFromDatabase4 (fun s => .error s)
      ⟨167772161, [], [], 4294967295, 43200100, 1, false, false, "w", 0,
       ""⟩ =
      .ok ⟨167772161, some ⟨[]⟩, some [], 4294967295, 100, 1, false, false,
           "w", 0, none⟩ := by rfl
  have h := c7_cltt_roundtrip (fun s => .error s) _ _ _ h1 h2
  exact ⟨h1, h2, h.2.2.1, h.2.2.2⟩

/-- C5: the expired-lease query returns only leases that are not in the
reclaimed state, already past their expiration, and not carrying the
infinite-lifetime sentinel; the result is ordered soonest-expiring first;
a positive maxCount caps the length; maxCount = 0 substitutes the maximum
32-bit value as the LIMIT argument (the clause itself is kept), and with
that cap every matching lease of the table is returned. -/
theorem c5_getExpiredLeases4 :
    ∀ (db : List Lease4Row) (now : Int) (maxCount : Nat),
      (∀ r ∈ getExpiredLeases4 db now maxCount,
          r.state ≠ STATE_EXPIRED_RECLAIMED ∧ r.expire < now ∧
          r.validLft ≠ 4294967295) ∧
      List.Sorted expireLE (getExpiredLeases4 db now maxCount) ∧
      (0 < maxCount → maxCount < 4294967296 →
        (getExpiredLeases4 db now maxCount).length ≤ maxCount) ∧
      (getExpiredLeases4 db now 0 =
        execGetLease4Expire db STATE_EXPIRED_RECLAIMED now 4294967295) ∧
      (db.length ≤ 4294967295 →
        ∀ r, r ∈ getExpiredLeases4 db now 0 ↔
          r ∈ db ∧
          lease4ExpirePred STATE_EXPIRED_RECLAIMED now r = true) := by
  intro db now maxCount
  refine ⟨?_, ?_, ?_, rfl, ?_⟩
  · intro r hr
    have h1 : r ∈ db.filter (lease4ExpirePred STATE_EXPIRED_RECLAIMED now)
        := by
      have hmem := List.take_subset _ _ hr
      rwa [List.mem_insertionSort] at hmem
    have h2 := (List.mem_filter.mp h1).2
    simp only [lease4ExpirePred, Bool.and_eq_true, bne_iff_ne,
      decide_eq_true_eq] at h2
    exact ⟨h2.1.1, h2.1.2, h2.2⟩
  · exact (List.sorted_insertionSort expireLE _).sublist
      (List.take_sublist _ _)
  · intro h0 hlt
    have hcap : (if maxCount > 0 then maxCount % 4294967296
        else 4294967295) = maxCount := by
      rw [if_pos h0, Nat.mod_eq_of_lt hlt]
    simp only [getExpiredLeases4, execGetLease4Expire, hcap]
    exact List.length_take_le _ _
  · intro hlen r
    have hall : getExpiredLeases4 db now 0 =
        (db.filter
          (lease4ExpirePred STATE_EXPIRED_RECLAIMED now)).insertionSort
          expireLE := by
      simp only [getExpiredLeases4, execGetLease4Expire]
      rw [if_neg (by omega)]
      exact List.take_of_length_le
        (by
          rw [List.length_insertionSort]
          exact le_trans (List.length_filter_le _ _) hlen)
    rw [hall, List.mem_insertionSort, List.mem_filter]

/-- C5, instantiated: with one reclaimed lease, one unexpired lease, one
infinite-lifetime lease and two genuinely expired leases, maxCount 1
returns only the soonest-expiring one and maxCount 0 returns both expired
leases, sorted. -/
theorem c5_witness :
    (getExpiredLeases4
        [⟨1, [], [], 600, 50, 1, false, false, "", 2, ""⟩,
         ⟨2, [], [], 600, 900, 1, false, false, "", 0, ""⟩,
         ⟨3, [], [], 4294967295, 40, 1, false, false, "", 0, ""⟩,
         ⟨4, [], [], 600, 80, 1, false, false, "", 0, ""⟩,
         ⟨5, [], [], 600, 60, 1, false, false, "", 0, ""⟩] 100 1).length ≤ 1
      ∧
    (∀ r ∈ getExpiredLeases4
        [⟨1, [], [], 600, 50, 1, false, false, "", 2, ""⟩,
         ⟨2, [], [], 600, 900, 1, false, false, "", 0, ""⟩,
         ⟨3, [], [], 4294967295, 40, 1, false, false, "", 0, ""⟩,
         ⟨4, [], [], 600, 80, 1, false, false, "", 0, ""⟩,
         ⟨5, [], [], 600, 60, 1, false, false, "", 0, ""⟩] 100 1,
        r.state ≠ STATE_EXPIRED_RECLAIMED ∧ r.expire < 100 ∧
        r.validLft ≠ 4294967295) ∧
    ((⟨4, [], [], 600, 80, 1, false, false, "", 0, ""⟩ : Lease4Row) ∈
      getExpiredLeases4
        [⟨1, [], [], 600, 50, 1, false, false, "", 2, ""⟩,
         ⟨2, [], [], 600, 900, 1, false, false, "", 0, ""⟩,
         ⟨3, [], [], 4294967295, 40, 1, false, false, "", 0, ""⟩,
         ⟨4, [], [], 600, 80, 1, false, false, "", 0, ""⟩,
         ⟨5, [], [], 600, 60, 1, false, false, "", 0, ""⟩] 100 0) := by
  refine ⟨(c5_getExpiredLeases4 _ 100 1).2.2.1 (by omega) (by omega),
          (c5_getExpiredLeases4 _ 100 1).1, ?_⟩
  exact ((c5_getExpiredLeases4 _ 100 0).2.2.2.2 (by decide)
    ⟨4, [], [], 600, 80, 1, false, false, "", 0, ""⟩).mpr
    ⟨by simp, by decide⟩

/-- Strict lexicographic comparison is asymmetric. -/
theorem charListLt_asymm :
    ∀ (as bs : List Char), charListLt as bs = true →
      charListLt bs as = false
  | [], [] => by simp [charListLt]
  | [], _ :: _ => by simp [charListLt]
  | _ :: _, [] => by simp [charListLt]
  | a :: as, b :: bs => by
    intro h
    simp only [charListLt] at h ⊢
    by_cases h1 : a.toNat < b.toNat
    · rw [if_neg (by omega), if_pos h1]
    · rw [if_neg h1] at h
      by_cases h2 : b.toNat < a.toNat
      · rw [if_pos h2] at h
        exact absurd h (by simp)
      · rw [if_neg h2] at h
        rw [if_neg h2, if_neg h1]
        exact charListLt_asymm as bs h

/-- Failing to be strictly above is transitive. -/
theorem charListLt_false_trans :
    ∀ (as bs cs : List Char), charListLt bs as = false →
      charListLt cs bs = false → charListLt cs as = false
  | as, bs, [] => by
    intro h1 h2
    cases as with
    | nil => rfl
    | cons a as2 =>
      cases bs with
      | nil => simp [charListLt] at h1
      | cons b bs2 => simp [charListLt] at h2
  | as, [], _ :: _ => by
    intro h1 _
    cases as with
    | nil => rfl
    | cons a as2 => simp [charListLt] at h1
  | [], _ :: _, _ :: _ => by intro _ _; rfl
  | a :: as, b :: bs, c :: cs => by
    intro h1 h2
    simp only [charListLt] at h1 h2 ⊢
    by_cases hba : b.toNat < a.toNat
    · rw [if_pos hba] at h1
      exact absurd h1 (by simp)
    · rw [if_neg hba] at h1
      by_cases hcb : c.toNat < b.toNat
      · rw [if_pos hcb] at h2
        exact absurd h2 (by simp)
      · rw [if_neg hcb] at h2
        rw [if_neg (show ¬c.toNat < a.toNat by omega)]
        by_cases hac : a.toNat < c.toNat
        · rw [if_pos hac]
        · rw [if_neg hac]
          rw [if_neg (show ¬a.toNat < b.toNat by omega)] at h1
          rw [if_neg (show ¬b.toNat < c.toNat by omega)] at h2
          exact charListLt_false_trans as bs cs h1 h2

instance : IsTotal Lease6Row addrTextLE :=
  ⟨fun a b => by
    unfold addrTextLE strLeB strLtB
    by_cases h : charListLt a.addr.data b.addr.data = true
    · left
      rw [charListLt_asymm _ _ h]
      rfl
    · right
      rw [Bool.not_eq_true] at h
      rw [h]
      rfl⟩

instance : IsTrans Lease6Row addrTextLE :=
  ⟨fun a b c h1 h2 => by
    unfold addrTextLE strLeB strLtB at h1 h2 ⊢
    rw [Bool.not_eq_true'] at h1 h2 ⊢
    exact charListLt_false_trans a.addr.data b.addr.data c.addr.data h1 h2⟩

/-- C6: the paged IPv6 retrieval returns only leases whose textual
address strictly exceeds the effective bound, in ascending textual
address order, capped at the page size; the zero address `::` is
special-cased to the textual bound "0", and with that bound (any stored
address text exceeding "0", as every real IPv6 text form does) the page
starting from the zero address covers the whole table in order. -/
theorem c6_getLeases6Page :
    ∀ (db : List Lease6Row) (lowerBound : String) (pageSize : Nat),
      (∀ r ∈ getLeases6Page db lowerBound pageSize,
          strLtB (if isV6ZeroText lowerBound then "0" else lowerBound)
            r.addr = true) ∧
      List.Sorted addrTextLE (getLeases6Page db lowerBound pageSize) ∧
      (getLeases6Page db lowerBound pageSize).length ≤ pageSize ∧
      (getLeases6Page db "::" pageSize = execGetLease6Page db "0" pageSize)
      ∧
      ((∀ r ∈ db, strLtB "0" r.addr = true) →
        getLeases6Page db "::" pageSize =
          (db.insertionSort addrTextLE).take pageSize) := by
  intro db lowerBound pageSize
  refine ⟨?_, ?_, ?_, rfl, ?_⟩
  · intro r hr
    have h1 : r ∈ db.filter
        (fun r => strLtB (if isV6ZeroText lowerBound then "0"
          else lowerBound) r.addr) := by
      have hmem := List.take_subset _ _ hr
      rwa [List.mem_insertionSort] at hmem
    exact (List.mem_filter.mp h1).2
  · exact (List.sorted_insertionSort addrTextLE _).sublist
      (List.take_sublist _ _)
  · exact List.length_take_le _ _
  · intro hall
    have hfe : db.filter (fun r => strLtB "0" r.addr) = db :=
      List.filter_eq_self.mpr hall
    show ((db.filter (fun r => strLtB "0" r.addr)).insertionSort
        addrTextLE).take pageSize = _
    rw [hfe]

/-- C6, instantiated: a three-lease table paged from the zero address with
page size 2 yields the two textually smallest addresses in order, each
strictly above the substituted bound "0". -/
theorem c6_witness :
    (∀ r ∈ getLeases6Page
        [⟨"fe80::1", [1], 600, 50, 1, 0⟩,
         ⟨"2001:db8::5", [2], 600, 60, 1, 0⟩,
         ⟨"::1", [3], 600, 70, 1, 0⟩] "::" 2,
        strLtB "0" r.addr = true) ∧
    getLeases6Page
        [⟨"fe80::1", [1], 600, 50, 1, 0⟩,
         ⟨"2001:db8::5", [2], 600, 60, 1, 0⟩,
         ⟨"::1", [3], 600, 70, 1, 0⟩] "::" 2 =
      (([⟨"fe80::1", [1], 600, 50, 1, 0⟩,
         ⟨"2001:db8::5", [2], 600, 60, 1, 0⟩,
         ⟨"::1", [3], 600, 70, 1, 0⟩] :
         List Lease6Row).insertionSort addrTextLE).take 2 := by
  constructor
  · intro r hr
    have h := (c6_getLeases6Page
      [⟨"fe80::1", [1], 600, 50, 1, 0⟩,
       ⟨"2001:db8::5", [2], 600, 60, 1, 0⟩,
       ⟨"::1", [3], 600, 70, 1, 0⟩] "::" 2).1 r hr
    simpa using h
  · exact (c6_getLeases6Page
      [⟨"fe80::1", [1], 600, 50, 1, 0⟩,
       ⟨"2001:db8::5", [2], 600, 60, 1, 0⟩,
       ⟨"::1", [3], 600, 70, 1, 0⟩] "::" 2).2.2.2.2 (by decide)

/-- C8: counterexample.  With a catalog holding 30 non-sentinel entries
against the expected count of 31, construction fails - but with
`DbOpenError`, not the `SchemaMismatchError` the claim names. -/
theorem c8_counterexample :
    pgSqlLeaseMgrConstruct (1, 0) (1, 0)
        (tagged_statements.take 30 ++ [⟨0, "", none⟩]) NUM_STATEMENTS =
      .error (.dbOpenError
        "Number of statements prepared: 30 does not match expected count:31")
    ∧
    DbError.isSchemaMismatch
      (.dbOpenError
        "Number of statements prepared: 30 does not match expected count:31")
      = false :=
  ⟨rfl, rfl⟩

/-- C8 (amended): construction validates the stored schema version first -
a (major, minor) pair differing from the expected version fails
with `DbOpenError` - and then the statement catalog: a non-sentinel entry
count differing from the enum-defined expected count also fails with
`DbOpenError` (not `SchemaMismatchError`); when both checks pass,
construction succeeds, and the shipped catalog does satisfy the count. -/
theorem c8_amended :
    (∀ (cv dv : Nat × Nat) (stmts : List TaggedStatement) (n : Nat),
        cv ≠ dv →
        pgSqlLeaseMgrConstruct cv dv stmts n =
          .error (.dbOpenError
            ("PostgreSQL schema version mismatch: need version: " ++
             toString cv.1 ++ "." ++ toString cv.2 ++ " found version:  " ++
             toString dv.1 ++ "." ++ toString dv.2))) ∧
    (∀ (v : Nat × Nat) (stmts : List TaggedStatement) (n : Nat),
        preparedCount stmts ≠ n →
        pgSqlLeaseMgrConstruct v v stmts n =
          .error (.dbOpenError
            ("Number of statements prepared: " ++
             toString (preparedCount stmts) ++
             " does not match expected count:" ++ toString n))) ∧
    (∀ (v : Nat × Nat) (stmts : List TaggedStatement) (n : Nat),
        preparedCount stmts = n →
        pgSqlLeaseMgrConstruct v v stmts n = .ok ()) ∧
    preparedCount tagged_statements = NUM_STATEMENTS ∧
    (∀ v : Nat × Nat,
        pgSqlLeaseMgrConstruct v v tagged_statements NUM_STATEMENTS =
          .ok ()) := by
  refine ⟨?_, ?_, ?_, by decide, ?_⟩
  · intro cv dv stmts n h
    simp [pgSqlLeaseMgrConstruct, h]
  · intro v stmts n h
    simp [pgSqlLeaseMgrConstruct, h]
  · intro v stmts n h
    simp [pgSqlLeaseMgrConstruct, h]
  · intro v
    have h : preparedCount tagged_statements = NUM_STATEMENTS := by decide
    simp [pgSqlLeaseMgrConstruct, h]

/-- C8 amended, instantiated: a version mismatch fails with `DbOpenError`
and the matching configuration constructs successfully. -/
theorem c8_witness :
    pgSqlLeaseMgrConstruct (1, 0) (2, 0) tagged_statements
        NUM_STATEMENTS =
      .error (.dbOpenError
        "PostgreSQL schema version mismatch: need version: 1.0 found version:  2.0")
    ∧
    pgSqlLeaseMgrConstruct (1, 0) (1, 0) tagged_statements
        NUM_STATEMENTS = .ok () := by
  constructor
  · exact c8_amended.1 (1, 0) (2, 0) tagged_statements NUM_STATEMENTS
      (by decide)
  · exact c8_amended.2.2.2.2 (1, 0)

/-- C9: counterexample.  Marshalling a lease with a 21-octet hardware
address fails, but with a `DbOperationError` (naming the address and the
cause), not the `DataConversionError` the claim names. -/
theorem c9_counterexample :
    createBindForSend4
        ⟨3221226005, some ⟨List.replicate 21 170⟩, none, 3600, 1000, 1,
         false, false, "h1", 0, none⟩ =
      .error (.dbOperationError
        "Could not create bind array from Lease4: 192.0.2.21, reason: Hardware address length : 21 exceeds maximum allowed of: 20")
    ∧
    DbError.isDataConversion
      (.dbOperationError
        "Could not create bind array from Lease4: 192.0.2.21, reason: Hardware address length : 21 exceeds maximum allowed of: 20")
      = false :=
  ⟨rfl, rfl⟩

/-- C9 (amended): an oversized hardware address on the write side, a
malformed or non-map JSON user-context on the read side, and an unknown
lease type all fail with `DbOperationError`: on the write side the error
names the offending address and the underlying cause; on the read side it
carries the underlying cause only.  Being failures of pure marshalling
functions, they leave every already-written field untouched. -/
theorem c9_amended :
    (∀ (L : Lease4) (hw : HWAddrT),
        L.hwaddr = some hw → hw.hwaddr ≠ [] →
        MAX_HWADDR_LEN < hw.hwaddr.length →
        createBindForSend4 L =
          .error (.dbOperationError
            ("Could not create bind array from Lease4: " ++
             addr4ToText L.addr ++ ", reason: " ++
             ("Hardware address length : " ++
              toString hw.hwaddr.length ++
              " exceeds maximum allowed of: " ++
              toString MAX_HWADDR_LEN)))) ∧
    (∀ (parse : String → Except String Element) (r : Lease4Row)
        (m : String),
        r.hwaddr.length ≤ MAX_HWADDR_LEN →
        r.clientId.length ≤ MAX_CLIENT_ID_LEN →
        r.userContext ≠ "" →
        parse r.userContext = .error m →
        convertFromDatabase4 parse r =
          .error (.dbOperationError
            ("Could not convert data to Lease4, reason: " ++ m))) ∧
    (∀ (parse : String → Except String Element) (r : Lease4Row)
        (e : Element),
        r.hwaddr.length ≤ MAX_HWADDR_LEN →
        r.clientId.length ≤ MAX_CLIENT_ID_LEN →
        r.userContext ≠ "" →
        parse r.userContext = .ok e →
        e.isMap = false →
        convertFromDatabase4 parse r =
          .error (.dbOperationError
            ("Could not convert data to Lease4, reason: " ++
             ("user context '" ++ r.userContext ++
              "' is not a JSON map")))) ∧
    (∀ raw : Nat, raw ≠ 0 → raw ≠ 1 → raw ≠ 2 →
        getLeaseTypeColumnValue raw =
          .error (.dbOperationError
            ("Invalid lease type: " ++ toString raw))) := by
  refine ⟨?_, ?_, ?_, ?_⟩
  · intro L hw hL hne hlen
    simp only [createBindForSend4, hL]
    rw [if_pos hne, if_pos hlen]
  · intro parse r m hhw hcid hctx hparse
    simp only [convertFromDatabase4]
    rw [if_neg (Nat.not_lt.mpr hhw), if_neg (Nat.not_lt.mpr hcid),
      if_pos hctx, hparse]
  · intro parse r e hhw hcid hctx hparse hmap
    simp only [convertFromDatabase4]
    rw [if_neg (Nat.not_lt.mpr hhw), if_neg (Nat.not_lt.mpr hcid),
      if_pos hctx, hparse]
    simp [hmap]
  · intro raw h0 h1 h2
    simp only [getLeaseTypeColumnValue]
    rw [if_neg (by omega)]

/-- C9 amended, instantiated at each failure mode: oversized hardware
address, parse failure on the user-context column, non-map user-context,
and an out-of-range lease type. -/
theorem c9_witness :
    createBindForSend4
        ⟨167772162, some ⟨List.replicate 21 1⟩, none, 600, 0, 1, false,
         false, "", 0, none⟩ =
      .error (.dbOperationError
        "Could not create bind array from Lease4: 10.0.0.2, reason: Hardware address length : 21 exceeds maximum allowed of: 20")
    ∧
    convertFromDatabase4 (fun _ => .error "parse failure")
        ⟨167772162, [], [], 600, 100, 1, false, false, "", 0, "nonsense"⟩ =
      .error (.dbOperationError
        "Could not convert data to Lease4, reason: parse failure") ∧
    convertFromDatabase4 (fun _ => .ok (.intVal 5))
        ⟨167772162, [], [], 600, 100, 1, false, false, "", 0, "5"⟩ =
      .error (.dbOperationError
        "Could not convert data to Lease4, reason: user context '5' is not a JSON map")
    ∧
    getLeaseTypeColumnValue 7 =
      .error (.dbOperationError "Invalid lease type: 7") := by
  refine ⟨?_, ?_, ?_, ?_⟩
  · exact c9_amended.1 _ ⟨List.replicate 21 1⟩ rfl (by decide) (by decide)
  · exact c9_amended.2.1 _ _ "parse failure" (by decide) (by decide)
      (by decide) rfl
  · exact c9_amended.2.2.1 _ _ (.intVal 5) (by decide) (by decide)
      (by decide) rfl rfl
  · exact c9_amended.2.2.2 7 (by decide) (by decide) (by decide)

end Kea
